import Mathlib

/-!
Shallow embedding of the tool-augmented dialogue loop of the
`03-ai-agent-for-devops` chapters of this repository:

* the response normalizer `extract_response_text`
  (`code/07/src/utils/response.py`, identical helper in
  `code/06/src/langchain_log_analyzer.py`);
* the chapter-9 agent loop and tool-call dispatcher
  (`code/09/src/agents/log_analyzer.py`, `LogAnalyzerAgent.process_query`
  and `LogAnalyzerAgent._handle_tool_calls`);
* the chapter-7 agent (`code/07/src/agents/log_analyzer.py`), including its
  session-history resolver, its tool dispatch loop (which, unlike the
  chapter-9 one, does not catch executor exceptions) and its memory updates.

The model transport (`llm.invoke` / `chain_with_history.invoke`) is a black
box per the specification: it is modelled as an explicit function argument
returning `Except String Response`, where `Except.error` stands for a raised
Python exception.  Tool executors are functions `String → Except String
String` for the same reason.
-/

namespace AgentSpec

/-- One content block inside a structured response payload, as probed by
`extract_response_text`: a dict carrying a `'text'` key, a plain string, or
any other block (a dict without `'text'`), which contributes no text. -/
inductive Block where
  | textBlock (t : String)
  | strBlock (s : String)
  | otherBlock
  deriving DecidableEq, Repr

/-- The shape of a `.content` attribute: a plain string, a list of content
blocks, or some other value whose `str()` rendering is the given string. -/
inductive Content where
  | str (s : String)
  | blocks (bs : List Block)
  | other (r : String)
  deriving DecidableEq, Repr

/-- The argument of `extract_response_text`: either a plain Python string
(which has no `.content` attribute, so the function falls through to
`str(response)`, the identity on strings), or an object exposing
`.content`. -/
inductive RawResponse where
  | str (s : String)
  | obj (content : Content)
  deriving DecidableEq, Repr

/-- The text a single block contributes to `text_parts` in
`extract_response_text`: dicts with a `'text'` key and plain strings are
appended, every other block is skipped. -/
def textOfBlock : Block → Option String
  | Block.textBlock t => some t
  | Block.strBlock s => some s
  | Block.otherBlock => none

/-- `''.join(text_parts)`: concatenate a list of strings in order with no
separator. -/
def joinParts : List String → String
  | [] => ""
  | p :: ps => p ++ joinParts ps

/-- `extract_response_text` from `code/07/src/utils/response.py`:
a string `.content` is returned unchanged; a list `.content` is reduced to
the join of the text of its blocks; any other `.content` is rendered with
`str`; a response without `.content` (in particular a plain string) is
rendered with `str(response)`. -/
def extractResponseText : RawResponse → String
  | RawResponse.str s => s
  | RawResponse.obj (Content.str s) => s
  | RawResponse.obj (Content.blocks bs) => joinParts (bs.filterMap textOfBlock)
  | RawResponse.obj (Content.other r) => r

theorem joinParts_append (l1 l2 : List String) :
    joinParts (l1 ++ l2) = joinParts l1 ++ joinParts l2 := by
  induction l1 with
  | nil => simp [joinParts]
  | cons p ps ih => simp [joinParts, ih, String.append_assoc]

/-- Claim C8: on a block-sequence payload, `extract_text` concatenates, in
input order and with no added separators, only the textual portion of each
block, skipping blocks carrying no text; in particular on
`[{text:"a"}, "b", {other:1}]` it returns `"ab"`.  The first conjunct is the
order-preserving concatenation law, the next three pin down the value on
each singleton block, and the last is the instance from the spec. -/
theorem extract_text_blocks_concat :
    (∀ bs1 bs2 : List Block,
      extractResponseText (RawResponse.obj (Content.blocks (bs1 ++ bs2)))
        = extractResponseText (RawResponse.obj (Content.blocks bs1))
          ++ extractResponseText (RawResponse.obj (Content.blocks bs2))) ∧
    (∀ t, extractResponseText (RawResponse.obj (Content.blocks [Block.textBlock t])) = t) ∧
    (∀ s, extractResponseText (RawResponse.obj (Content.blocks [Block.strBlock s])) = s) ∧
    extractResponseText (RawResponse.obj (Content.blocks [Block.otherBlock])) = "" ∧
    extractResponseText (RawResponse.obj
      (Content.blocks [Block.textBlock "a", Block.strBlock "b", Block.otherBlock])) = "ab" := by
  refine ⟨?_, ?_, ?_, rfl, rfl⟩
  · intro bs1 bs2
    simp [extractResponseText, List.filterMap_append, joinParts_append]
  · intro t
    simp [extractResponseText, textOfBlock, joinParts]
  · intro s
    simp [extractResponseText, textOfBlock, joinParts]

/-- Claim C9: `extract_text` returns a plain string payload unchanged
(a plain string has no `.content` attribute, so the function returns
`str(response)`, which is the string itself), hence it is idempotent on
strings. -/
theorem extract_text_string_identity_idempotent :
    (∀ x : String, extractResponseText (RawResponse.str x) = x) ∧
    (∀ x : String,
      extractResponseText (RawResponse.str (extractResponseText (RawResponse.str x)))
        = extractResponseText (RawResponse.str x)) :=
  ⟨fun _ => rfl, fun _ => rfl⟩

/-- A tool-call request as carried by a model response: the dict
`{'name': ..., 'args': ..., 'id': ...}` read off by `_handle_tool_calls`.
Arguments are opaque to the dispatcher and modelled as a string. -/
structure ToolCall where
  name : String
  args : String
  id : String
  deriving DecidableEq, Repr

/-- A `ToolMessage(content=..., tool_call_id=...)` produced by the
chapter-9 dispatcher for one executed tool call. -/
structure ToolMessage where
  content : String
  tool_call_id : String
  deriving DecidableEq, Repr

/-- A model response: its `.content` and its (possibly empty) `.tool_calls`
list. -/
structure Response where
  content : Content
  tool_calls : List ToolCall
  deriving DecidableEq, Repr

/-- `extract_response_text` applied to a model response object, which always
exposes `.content`. -/
def extractResponse (r : Response) : String :=
  extractResponseText (RawResponse.obj r.content)

/-- A registered tool: its `.name` and its `.invoke` executor.  `Except.error`
models a raised Python exception. -/
structure Tool where
  name : String
  invoke : String → Except String String

/-- The inner resolution loop of `_handle_tool_calls`:
`for tool in self.tools: if tool.name == tool_name: ...` — the first
registered tool with the requested name, if any. -/
def findTool (tools : List Tool) (tool_name : String) : Option Tool :=
  tools.find? (fun t => t.name == tool_name)

/-- The chapter-9 dispatch loop (`code/09/src/agents/log_analyzer.py`,
lines 117-146): for each tool call, resolve the tool by name; if found,
invoke it, appending a `ToolMessage` with `str(result)` on success and
with `"Error: " + str(e)` when the executor raises; if no tool matches the
name, nothing is appended (the `if tool_func:` has no else branch). -/
def dispatch09 (tools : List Tool) : List ToolCall → List ToolMessage
  | [] => []
  | tc :: rest =>
    match findTool tools tc.name with
    | none => dispatch09 tools rest
    | some t =>
      match t.invoke tc.args with
      | Except.ok result => ⟨result, tc.id⟩ :: dispatch09 tools rest
      | Except.error e => ⟨"Error: " ++ e, tc.id⟩ :: dispatch09 tools rest

/-- A message in the outbound sequence: system prompt, user input, an
`AIMessage` (content plus raw tool-call metadata) or a `ToolMessage`. -/
inductive Message where
  | system (s : String)
  | human (s : String)
  | ai (content : Content) (tool_calls : List ToolCall)
  | tool (content : String) (tool_call_id : String)
  deriving DecidableEq, Repr

/-- `self.prompt.format_messages(chat_history=..., input=...)`: the system
prompt, then the chat history, then the new user message. -/
def format_messages (sysPrompt : String) (chat_history : List Message)
    (user_input : String) : List Message :=
  Message.system sysPrompt :: chat_history ++ [Message.human user_input]

/-- One round of message extension in the chapter-9 agent loop:
`messages.append(AIMessage(content=..., tool_calls=...))` followed by
`messages.extend(tool_messages)` where `tool_messages` is the dispatch
output. -/
def extendMessages (tools : List Tool) (ms : List Message) (r : Response) :
    List Message :=
  ms ++ [Message.ai r.content r.tool_calls]
    ++ (dispatch09 tools r.tool_calls).map (fun m => Message.tool m.content m.tool_call_id)

/-- The chapter-9 `while iteration < max_iterations` agent loop
(`code/09/src/agents/log_analyzer.py`, lines 104-156), with the remaining
iteration budget as fuel.  Returns the loop's outcome (`Except.error` when a
model invocation inside the loop raises, which propagates to
`process_query`) together with the number of model invocations the loop
performed.  When the budget is exhausted the normalized text of the current
response is returned. -/
def handleLoop (llm : List Message → Except String Response) (tools : List Tool) :
    Nat → List Message → Response → Except String String × Nat
  | 0, _, current => (Except.ok (extractResponse current), 0)
  | fuel + 1, ms, current =>
    if current.tool_calls.isEmpty then (Except.ok (extractResponse current), 0)
    else
      let ms' := extendMessages tools ms current
      match llm ms' with
      | Except.error e => (Except.error e, 1)
      | Except.ok next =>
        let r := handleLoop llm tools fuel ms' next
        (r.1, r.2 + 1)

/-- `max_iterations = 5` in `_handle_tool_calls`; `Config.MAX_ITERATIONS`
in `code/09/src/config.py` has the same value. -/
def MAX_ITERATIONS : Nat := 5

/-- The chapter-9 `process_query` (`code/09/src/agents/log_analyzer.py`,
lines 46-82): a `None` chat history is normalized to the empty list, the
messages are formatted, the model is invoked once; a response without tool
calls is normalized and returned, otherwise `_handle_tool_calls` runs the
agent loop; any exception escaping the body is caught and rendered as
`"Error processing query: " + str(e)`.  The second component counts model
transport invocations. -/
def process_query09 (llm : List Message → Except String Response)
    (tools : List Tool) (maxIterations : Nat) (sysPrompt user_input : String)
    (chat_history : Option (List Message)) : String × Nat :=
  let hist := chat_history.getD []
  let ms := format_messages sysPrompt hist user_input
  match llm ms with
  | Except.error e => ("Error processing query: " ++ e, 1)
  | Except.ok response =>
    if response.tool_calls.isEmpty then (extractResponse response, 1)
    else
      let r := handleLoop llm tools maxIterations ms response
      match r.1 with
      | Except.ok text => (text, r.2 + 1)
      | Except.error e => ("Error processing query: " ++ e, r.2 + 1)

/-- Claim C1, counterexample: dispatching a single request whose tool name
matches no registered tool produces the empty result list — zero results for
one request, so dispatch does not produce exactly one `ToolResult` per
request, and the unresolved request yields no failure-shaped result at all:
it is silently dropped. -/
theorem dispatch_unknown_tool_dropped :
    dispatch09 [] [⟨"missing_tool", "", "call_1"⟩] = [] := rfl

/-- Claim C1 as amended: the chapter-9 dispatcher produces exactly one
`ToolResult` per request whose tool name matches a registered tool, in the
same order as the input (an executor exception still yields a
failure-shaped result, so resolvable requests are never dropped); a request
whose name matches no registered tool is silently dropped — it contributes
no result, though dispatch itself never crashes. -/
theorem dispatch_one_result_per_resolvable_call (tools : List Tool)
    (calls : List ToolCall) :
    (dispatch09 tools calls).map ToolMessage.tool_call_id
      = (calls.filter (fun tc => (findTool tools tc.name).isSome)).map ToolCall.id := by
  induction calls with
  | nil => rfl
  | cons tc rest ih =>
    cases hf : findTool tools tc.name with
    | none => simpa [dispatch09, hf] using ih
    | some t =>
      cases hi : t.invoke tc.args with
      | ok result => simpa [dispatch09, hf, hi] using ih
      | error e => simpa [dispatch09, hf, hi] using ih

theorem handleLoop_count_le (llm : List Message → Except String Response)
    (tools : List Tool) :
    ∀ (fuel : Nat) (ms : List Message) (resp : Response),
      (handleLoop llm tools fuel ms resp).2 ≤ fuel := by
  intro fuel
  induction fuel with
  | zero => intro ms resp; simp [handleLoop]
  | succ n ih =>
    intro ms resp
    simp only [handleLoop]
    cases hemp : resp.tool_calls.isEmpty with
    | true => simp
    | false =>
      simp only [Bool.false_eq_true, if_false]
      cases hr : llm (extendMessages tools ms resp) with
      | error e => simp
      | ok next =>
        simpa using Nat.succ_le_succ (ih (extendMessages tools ms resp) next)

/-- Claim C2: for a single user utterance processed with iteration cap `N`,
the model transport is invoked at most `N + 1` times before `process_query`
returns; the cap hard-coded in the chapter-9 loop (and mirrored by
`Config.MAX_ITERATIONS`) is 5. -/
theorem model_invocations_within_cap :
    (∀ (llm : List Message → Except String Response) (tools : List Tool)
      (N : Nat) (sysPrompt user_input : String)
      (chat_history : Option (List Message)),
      (process_query09 llm tools N sysPrompt user_input chat_history).2 ≤ N + 1) ∧
    MAX_ITERATIONS = 5 := by
  refine ⟨?_, rfl⟩
  intro llm tools N sysPrompt user_input chat_history
  simp only [process_query09]
  cases hr : llm (format_messages sysPrompt (chat_history.getD []) user_input) with
  | error e => simp
  | ok response =>
    dsimp only
    by_cases hemp : response.tool_calls.isEmpty
    · simp [hemp]
    · rw [if_neg hemp]
      have hle := handleLoop_count_le llm tools N
        (format_messages sysPrompt (chat_history.getD []) user_input) response
      cases h1 : (handleLoop llm tools N
          (format_messages sysPrompt (chat_history.getD []) user_input) response).1 with
      | ok text => exact Nat.succ_le_succ hle
      | error e => exact Nat.succ_le_succ hle

/-- Claim C10: calling `process_query` with `chat_history=None` behaves
exactly like calling it with an empty history list — `None` is silently
normalized to the empty conversation. -/
theorem none_history_equals_empty (llm : List Message → Except String Response)
    (tools : List Tool) (N : Nat) (sysPrompt user_input : String) :
    process_query09 llm tools N sysPrompt user_input none
      = process_query09 llm tools N sysPrompt user_input (some []) := rfl

/-- Claim C4 as amended, chapter-9 part: when a resolvable tool call's
executor raises, the chapter-9 dispatcher catches the exception and emits a
`ToolMessage` whose content is `"Error: " + str(e)`; that message is part of
the extended message sequence, and the agent loop (with budget remaining)
continues by invoking the model on that extended sequence rather than
aborting the turn. -/
theorem ch09_executor_exception_becomes_tool_result
    (llm : List Message → Except String Response) (tools : List Tool)
    (ms : List Message) (resp : Response) (tc : ToolCall) (t : Tool)
    (e : String) (n : Nat)
    (hfind : findTool tools tc.name = some t)
    (hinv : t.invoke tc.args = Except.error e)
    (hcalls : resp.tool_calls = [tc]) :
    dispatch09 tools resp.tool_calls = [⟨"Error: " ++ e, tc.id⟩] ∧
    Message.tool ("Error: " ++ e) tc.id ∈ extendMessages tools ms resp ∧
    handleLoop llm tools (n + 1) ms resp =
      (match llm (extendMessages tools ms resp) with
       | Except.error e2 => (Except.error e2, 1)
       | Except.ok next =>
         ((handleLoop llm tools n (extendMessages tools ms resp) next).1,
          (handleLoop llm tools n (extendMessages tools ms resp) next).2 + 1)) := by
  obtain ⟨rc, rcalls⟩ := resp
  simp only at hcalls
  subst hcalls
  refine ⟨?_, ?_, ?_⟩
  · simp [dispatch09, hfind, hinv]
  · simp [extendMessages, dispatch09, hfind, hinv]
  · rfl

def c4Tool : Tool :=
  ⟨"read_log_file", fun _ => Except.error "File not found: missing.log"⟩

def c4Call : ToolCall := ⟨"read_log_file", "missing.log", "call_1"⟩

def c4Resp : Response := ⟨Content.str "", [c4Call]⟩

def c4Llm : List Message → Except String Response :=
  fun _ => Except.ok ⟨Content.str "The file is missing.", []⟩

theorem ch09_executor_exception_becomes_tool_result_witness :
    dispatch09 [c4Tool] c4Resp.tool_calls
      = [⟨"Error: File not found: missing.log", "call_1"⟩] :=
  (ch09_executor_exception_becomes_tool_result c4Llm [c4Tool] [] c4Resp c4Call
    c4Tool "File not found: missing.log" 1 rfl rfl rfl).1

/-- `Except.getD`-style helper used only to state the budget-exhaustion
theorem: the response a successful model call produced, or a default. -/
def exceptGetD (x : Except String Response) (d : Response) : Response :=
  match x with
  | Except.ok r => r
  | Except.error _ => d

/-- One dispatch round of the chapter-9 loop as a state transformer on
(message sequence, current response), used to name the sequence of responses
the loop walks through. -/
def loopStep (llm : List Message → Except String Response) (tools : List Tool)
    (p : List Message × Response) : List Message × Response :=
  let ms' := extendMessages tools p.1 p.2
  (ms', exceptGetD (llm ms') p.2)

/-- Claim C6: if the model keeps requesting tool calls (and never raises),
then after the iteration budget `N` is spent the loop exits and returns
`Except.ok` of the normalized text of the last response obtained — a
degraded plain-text answer, not an error — having performed exactly `N`
in-loop model invocations (one per dispatch round). -/
theorem budget_exhausted_returns_last_text
    (llm : List Message → Except String Response) (tools : List Tool) :
    ∀ (N : Nat) (ms : List Message) (resp : Response),
      (∀ m, ∃ r, llm m = Except.ok r ∧ r.tool_calls.isEmpty = false) →
      resp.tool_calls.isEmpty = false →
      handleLoop llm tools N ms resp
        = (Except.ok (extractResponse ((loopStep llm tools)^[N] (ms, resp)).2), N) := by
  intro N
  induction N with
  | zero => intro ms resp _ _; rfl
  | succ n ih =>
    intro ms resp hllm h0
    obtain ⟨r, hr, hrc⟩ := hllm (extendMessages tools ms resp)
    have hstep : loopStep llm tools (ms, resp) = (extendMessages tools ms resp, r) := by
      simp [loopStep, hr, exceptGetD]
    rw [Function.iterate_succ_apply, hstep]
    simp only [handleLoop, h0, Bool.false_eq_true, if_false, hr]
    rw [ih (extendMessages tools ms resp) r hllm hrc]

def c6Resp : Response :=
  ⟨Content.str "Restarting the pod now.", [⟨"restart_pod", "api-server", "c1"⟩]⟩

def c6Llm : List Message → Except String Response := fun _ => Except.ok c6Resp

theorem budget_exhausted_returns_last_text_witness :
    handleLoop c6Llm [] 2 [] c6Resp
      = (Except.ok (extractResponse ((loopStep c6Llm [])^[2] ([], c6Resp)).2), 2) :=
  budget_exhausted_returns_last_text c6Llm [] 2 [] c6Resp
    (fun _ => ⟨c6Resp, rfl, rfl⟩) rfl

/-- A chat-history message of the chapter-7 agent: the histories only ever
receive `add_user_message` / `add_ai_message` entries. -/
inductive ChatMsg where
  | human (s : String)
  | ai (s : String)
  deriving DecidableEq, Repr

/-- `InMemoryChatMessageHistory`: an ordered list of messages.  The class
itself lives in `langchain_core`; its `add_user_message` / `add_ai_message`
append one message, as stated by the Memory contract in the spec
(append-only, insertion order canonical). -/
structure InMemoryChatMessageHistory where
  messages : List ChatMsg
  deriving DecidableEq, Repr

/-- The mutable state of a chapter-7 `LogAnalyzerAgent`: its single
`self.chat_history` created in `__init__`. -/
structure Agent07 where
  chat_history : InMemoryChatMessageHistory
  deriving DecidableEq, Repr

/-- `self.chat_history.add_user_message(...)` as a state transformer. -/
def add_user_message (st : Agent07) (s : String) : Agent07 :=
  ⟨⟨st.chat_history.messages ++ [ChatMsg.human s]⟩⟩

/-- `self.chat_history.add_ai_message(...)` as a state transformer. -/
def add_ai_message (st : Agent07) (s : String) : Agent07 :=
  ⟨⟨st.chat_history.messages ++ [ChatMsg.ai s]⟩⟩

/-- The session-history resolver passed to `RunnableWithMessageHistory` in
`code/07/src/agents/log_analyzer.py` (and, for the module-level history, in
`code/06/src/langchain_log_analyzer.py`): `lambda session_id:
self.chat_history` — the session key is ignored and the agent's single
history is returned for every key. -/
def get_session_history (st : Agent07) (session_id : String) :
    InMemoryChatMessageHistory :=
  st.chat_history

/-- The chapter-7 tool-execution loop (`code/07/src/agents/log_analyzer.py`,
lines 113-130): for each tool call, the first registered tool with a
matching name is invoked and `{'name': ..., 'result': ...}` collected; a
call matching no tool is skipped; there is no `try`/`except`, so an
executor exception propagates out of the loop (and out of
`_handle_tool_calls`). -/
def dispatch07 (tools : List Tool) :
    List ToolCall → Except String (List (String × String))
  | [] => Except.ok []
  | tc :: rest =>
    match findTool tools tc.name with
    | none => dispatch07 tools rest
    | some t =>
      match t.invoke tc.args with
      | Except.error e => Except.error e
      | Except.ok result =>
        match dispatch07 tools rest with
        | Except.error e => Except.error e
        | Except.ok rs => Except.ok ((tc.name, result) :: rs)

/-- `tool_context`: `"\n\n".join(f"Tool: {name}\nResult:\n{result}")` over
the collected results. -/
def toolContext (results : List (String × String)) : String :=
  String.intercalate "\n\n"
    (results.map (fun tr => "Tool: " ++ tr.1 ++ "\nResult:\n" ++ tr.2))

/-- The instruction appended to the system prompt for the follow-up model
call in the chapter-7 `_handle_tool_calls`. -/
def analysisSuffix : String :=
  "\n\nYou used tools to get information. Now provide a clear, concise answer based on the tool results. Do not generate fake data - only analyze what you actually received."

/-- The chapter-7 `_handle_tool_calls` (lines 102-153): run the tool loop,
build the analysis prompt, make one follow-up model call (`self.llm.invoke`
with a system and a user string), normalize its text, and append the user
turn and the assistant turn to the chat history.  `Except.error` is an
exception propagating out of the method. -/
def handle_tool_calls07 (final_llm : String → String → Except String Response)
    (tools : List Tool) (sysPrompt : String) (st : Agent07)
    (response : Response) (user_input : String) :
    Except String (String × Agent07) :=
  match dispatch07 tools response.tool_calls with
  | Except.error e => Except.error e
  | Except.ok tool_results =>
    match final_llm (sysPrompt ++ analysisSuffix)
        ("User asked: " ++ user_input ++ "\n\nTool results:\n"
          ++ toolContext tool_results
          ++ "\n\nPlease analyze these results and answer the user's question.") with
    | Except.error e => Except.error e
    | Except.ok final_response =>
      let response_text := extractResponse final_response
      Except.ok (response_text, add_ai_message (add_user_message st user_input) response_text)

/-- The `try` body of the chapter-7 `process_query` (lines 75-93):
invoke the chain (the model transport, a black box per the spec) on the
current history and input; if the response carries no tool calls, normalize
it and append the user and assistant turns; otherwise run
`_handle_tool_calls`.  `Except.error` is an exception reaching the
`except` clause. -/
def process_query07Run (chain_invoke : List ChatMsg → String → Except String Response)
    (final_llm : String → String → Except String Response)
    (tools : List Tool) (sysPrompt : String) (st : Agent07) (user_input : String) :
    Except String (String × Agent07) :=
  match chain_invoke st.chat_history.messages user_input with
  | Except.error e => Except.error e
  | Except.ok response =>
    if response.tool_calls.isEmpty then
      let response_text := extractResponse response
      Except.ok (response_text, add_ai_message (add_user_message st user_input) response_text)
    else
      handle_tool_calls07 final_llm tools sysPrompt st response user_input

/-- The chapter-7 `process_query` with its `except` clause: any exception is
rendered as `"Error processing query: " + str(e)` and the agent state is
left as it was. -/
def process_query07 (chain_invoke : List ChatMsg → String → Except String Response)
    (final_llm : String → String → Except String Response)
    (tools : List Tool) (sysPrompt : String) (st : Agent07) (user_input : String) :
    String × Agent07 :=
  match process_query07Run chain_invoke final_llm tools sysPrompt st user_input with
  | Except.ok r => r
  | Except.error e => ("Error processing query: " ++ e, st)

/-- Claim C3, counterexample: the session keys `"session_A"` and
`"session_B"` are distinct, yet a turn appended to the agent's history
(which is what processing under `"session_A"` appends to) is visible from
`"session_B"`'s snapshot, because `get_session_history` ignores its session
key — the two keys are backed by the same Memory, not disjoint ones. -/
theorem cross_session_memory_visible :
    ("session_A" : String) ≠ "session_B" ∧
    get_session_history (add_user_message ⟨⟨[]⟩⟩ "hello from A") "session_B"
      = ⟨[ChatMsg.human "hello from A"]⟩ :=
  ⟨by decide, rfl⟩

/-- Claim C3 as amended: the history resolver returns the agent's single
Memory for every session key, so all session keys share one Memory and no
per-key isolation exists; Memory isolation holds per agent instance (each
`LogAnalyzerAgent.__init__` creates a fresh history), and the program only
ever uses the single key `"default_session"`. -/
theorem all_session_keys_share_memory (st : Agent07) (k1 k2 : String) :
    get_session_history st k1 = get_session_history st k2 := rfl

def c4cxCall : ToolCall := ⟨"read_log_file", "missing.log", "call_1"⟩

def c4cxChain : List ChatMsg → String → Except String Response :=
  fun _ _ => Except.ok ⟨Content.str "", [c4cxCall]⟩

def c4cxFinal : String → String → Except String Response :=
  fun _ _ => Except.ok ⟨Content.str "analysis", []⟩

/-- Claim C4, counterexample: in the chapter-7 variant (cited by the claim),
the dispatch loop has no `try`/`except`; when the executor for
`read_log_file("missing.log")` raises, the dispatcher propagates the
exception instead of converting it into a failure-shaped `ToolResult`, and
the turn aborts with an error string — the follow-up model call never
receives the failure payload and the agent state is untouched. -/
theorem ch07_executor_exception_aborts_turn :
    dispatch07 [c4Tool] [c4cxCall]
      = Except.error "File not found: missing.log" ∧
    process_query07 c4cxChain c4cxFinal [c4Tool] "sys" ⟨⟨[]⟩⟩ "read missing.log"
      = ("Error processing query: File not found: missing.log", ⟨⟨[]⟩⟩) :=
  ⟨rfl, rfl⟩

/-- Claim C5: whenever the chapter-7 `process_query` body completes without
an exception, the chat history afterwards is exactly the previous history
plus one user turn and one assistant turn — the turn count grows by exactly
2, and no intermediate tool-round turns are persisted to the session
Memory. -/
theorem successful_turn_appends_two
    (chain_invoke : List ChatMsg → String → Except String Response)
    (final_llm : String → String → Except String Response)
    (tools : List Tool) (sysPrompt : String) (st : Agent07)
    (user_input text : String) (st' : Agent07)
    (h : process_query07Run chain_invoke final_llm tools sysPrompt st user_input
          = Except.ok (text, st')) :
    st'.chat_history.messages
        = st.chat_history.messages ++ [ChatMsg.human user_input, ChatMsg.ai text] ∧
    st'.chat_history.messages.length = st.chat_history.messages.length + 2 := by
  have hmain : st'.chat_history.messages
      = st.chat_history.messages ++ [ChatMsg.human user_input, ChatMsg.ai text] := by
    unfold process_query07Run at h
    cases hc : chain_invoke st.chat_history.messages user_input with
    | error e => rw [hc] at h; exact absurd h (by simp)
    | ok response =>
      rw [hc] at h
      dsimp only at h
      by_cases hemp : response.tool_calls.isEmpty
      · rw [if_pos hemp] at h
        simp only [Except.ok.injEq, Prod.mk.injEq] at h
        obtain ⟨ht, hst⟩ := h
        subst ht
        subst hst
        simp [add_user_message, add_ai_message]
      · rw [if_neg hemp] at h
        unfold handle_tool_calls07 at h
        cases hd : dispatch07 tools response.tool_calls with
        | error e => rw [hd] at h; exact absurd h (by simp)
        | ok tool_results =>
          rw [hd] at h
          dsimp only at h
          cases hf : final_llm (sysPrompt ++ analysisSuffix)
              ("User asked: " ++ user_input ++ "\n\nTool results:\n"
                ++ toolContext tool_results
                ++ "\n\nPlease analyze these results and answer the user's question.") with
          | error e => rw [hf] at h; exact absurd h (by simp)
          | ok final_response =>
            rw [hf] at h
            simp only [Except.ok.injEq, Prod.mk.injEq] at h
            obtain ⟨ht, hst⟩ := h
            subst ht
            subst hst
            simp [add_user_message, add_ai_message]
  refine ⟨hmain, ?_⟩
  rw [hmain]
  simp

def c5Chain : List ChatMsg → String → Except String Response :=
  fun _ _ => Except.ok ⟨Content.str "hi there", []⟩

def c5Final : String → String → Except String Response :=
  fun _ _ => Except.ok ⟨Content.str "unused", []⟩

theorem successful_turn_appends_two_witness :
    (Agent07.mk ⟨[ChatMsg.human "q", ChatMsg.ai "hi there"]⟩).chat_history.messages
        = (Agent07.mk ⟨[]⟩).chat_history.messages
          ++ [ChatMsg.human "q", ChatMsg.ai "hi there"] ∧
    (Agent07.mk ⟨[ChatMsg.human "q", ChatMsg.ai "hi there"]⟩).chat_history.messages.length
        = (Agent07.mk ⟨[]⟩).chat_history.messages.length + 2 :=
  successful_turn_appends_two c5Chain c5Final [] "sys" ⟨⟨[]⟩⟩ "q" "hi there"
    ⟨⟨[ChatMsg.human "q", ChatMsg.ai "hi there"]⟩⟩ rfl

/-- Claim C7: an exception escaping the model call itself is caught at the
loop boundary of the chapter-7 `process_query`, which returns the
user-visible string `"Error processing query: " + str(e)` and leaves the
session Memory exactly as it was before the call. -/
theorem transport_error_returns_string_memory_unchanged
    (chain_invoke : List ChatMsg → String → Except String Response)
    (final_llm : String → String → Except String Response)
    (tools : List Tool) (sysPrompt : String) (st : Agent07)
    (user_input e : String)
    (h : chain_invoke st.chat_history.messages user_input = Except.error e) :
    process_query07 chain_invoke final_llm tools sysPrompt st user_input
      = ("Error processing query: " ++ e, st) := by
  unfold process_query07 process_query07Run
  rw [h]

def c7Chain : List ChatMsg → String → Except String Response :=
  fun _ _ => Except.error "503 Service Unavailable"

def c7Final : String → String → Except String Response :=
  fun _ _ => Except.ok ⟨Content.str "unused", []⟩

def c7St : Agent07 := ⟨⟨[ChatMsg.human "old question", ChatMsg.ai "old answer"]⟩⟩

theorem transport_error_returns_string_memory_unchanged_witness :
    process_query07 c7Chain c7Final [] "sys" c7St "q"
      = ("Error processing query: 503 Service Unavailable", c7St) :=
  transport_error_returns_string_memory_unchanged c7Chain c7Final [] "sys" c7St
    "q" "503 Service Unavailable" rfl

end AgentSpec
